import Mathlib

/-!
Verification of the object-bridging layer of rust-cpython (the two source
files `src/objects/sequence.rs` and `src/rustobject/class.rs`).

The embedding has two layers:
* the sentinel-translation and control-flow layer, translated directly from
  the Rust source (`PySequence.len`, `PySequence.get_item`, `lazyInit`,
  `downcast_from`, the sequence iterator);
* a model of the foreign runtime's sequence protocol (`PySequence_Size`,
  `PySequence_GetItem`, ...), which is not part of the repository; those
  definitions are modelled from the spec's description of the foreign ABI.

Panics (Rust `assert!` / `unwrap` / `unimplemented!`) are modelled by the
`PanicOr` outcome type, since they terminate the call rather than return.
-/

namespace RustCPython

/-- An error condition raised inside the foreign runtime (`PyErr`). -/
structure PyErr where
  info : Nat
deriving DecidableEq, Repr

/-- The runtime session (`Python<'p>` token); it carries the session-global
last-raised error condition that `PyErr::fetch` reads. -/
structure Session where
  lastError : PyErr
deriving DecidableEq, Repr

/-- `PyErr::fetch(py)`: retrieve the current error condition from the
session-global error state. -/
def PyErr.fetch (py : Session) : PyErr := py.lastError

/-- Outcome of a call that may terminate the process via a Rust panic
(`assert!` failure or `unwrap` on an `Err`): either a returned value or a
process-terminating fault carrying the panic message. -/
inductive PanicOr (β : Type) where
  | panic (msg : String)
  | ret (x : β)
deriving DecidableEq, Repr

/-- A foreign object satisfying the sequence protocol, modelled by the list
of its elements (`PySequence<'p>` wraps such an object). -/
structure PySeq (α : Type) where
  items : List α
deriving DecidableEq, Repr

/-- Index of the first occurrence of `x` in a list, if any. -/
def firstIdx {α : Type} [DecidableEq α] : List α → α → Option Nat
  | [], _ => none
  | a :: rest, x => if a = x then some 0 else (firstIdx rest x).map (· + 1)

/-- Modelled from the spec: the foreign `PySequence_Size` primitive returns a
valid non-negative count, or the sentinel `-1` on failure; for a genuine
sequence object (modelled concretely by its element list) it returns the
length and never fails. -/
def PySequence_Size {α : Type} (s : PySeq α) : Int := s.items.length

/-- Modelled from the spec: the foreign `PySequence_GetItem` primitive; a
negative index means from-end; an index outside `[-length, length)` yields
the null sentinel (`none`) after raising an error in the session. -/
def PySequence_GetItem {α : Type} (s : PySeq α) (i : Int) : Option α :=
  if 0 ≤ i ∧ i < (s.items.length : Int) then s.items[i.toNat]?
  else if -(s.items.length : Int) ≤ i ∧ i < 0 then s.items[(i + s.items.length).toNat]?
  else none

/-- Modelled from the spec: the foreign `PySequence_Repeat` primitive; a
negative count is valid and yields an empty sequence, per the foreign
runtime's repetition semantics. -/
def PySequence_Repeat {α : Type} (s : PySeq α) (count : Int) : Option (PySeq α) :=
  some ⟨(List.replicate count.toNat s.items).flatten⟩

/-- Modelled from the spec: the foreign `PySequence_Concat` primitive. -/
def PySequence_Concat {α : Type} (s t : PySeq α) : Option (PySeq α) :=
  some ⟨s.items ++ t.items⟩

/-- Modelled from the spec: the foreign `PySequence_Contains` primitive; a
tri-state return, `1` when the needle occurs in the sequence (under the
foreign equality), `0` when it does not, `-1` on error (never, for a genuine
sequence). -/
def PySequence_Contains {α : Type} [DecidableEq α] (s : PySeq α) (x : α) : Int :=
  if x ∈ s.items then 1 else 0

/-- Modelled from the spec: the foreign `PySequence_Index` primitive; the
first index whose element equals the needle, or the sentinel `-1` (with an
error raised) when there is no match. -/
def PySequence_Index {α : Type} [DecidableEq α] (s : PySeq α) (x : α) : Int :=
  match firstIdx s.items x with
  | some i => (i : Int)
  | none => -1

/-- Modelled from the spec: `result_from_owned_ptr` (from the error-handling
module, outside the two source files): a null-pointer sentinel from an
object-returning foreign call is translated by fetching the current error
condition from the session; a non-null pointer becomes an `Ok` owned handle. -/
def result_from_owned_ptr {β : Type} (py : Session) : Option β → Except PyErr β
  | none => Except.error (PyErr.fetch py)
  | some x => Except.ok x

/-- The sentinel translation inside `PySequence::len` (src/objects/sequence.rs
lines 33-40), factored over the raw foreign return value `v`: if `v == -1`
the call failed and the error is fetched from the session; otherwise `v` is
returned as the count. -/
def PySequence.len_from_raw (py : Session) (v : Int) : Except PyErr Int :=
  if v = -1 then Except.error (PyErr.fetch py) else Except.ok v

/-- `PySequence::len` (src/objects/sequence.rs lines 33-40): calls the foreign
size primitive and translates the `-1` sentinel. -/
def PySequence.len {α : Type} (py : Session) (s : PySeq α) : Except PyErr Int :=
  PySequence.len_from_raw py (PySequence_Size s)

/-- `PySequence::repeat` (src/objects/sequence.rs lines 56-62): forwards to
the foreign repeat primitive and translates the null sentinel. -/
def PySequence.repeat {α : Type} (py : Session) (s : PySeq α) (count : Int) :
    Except PyErr (PySeq α) :=
  result_from_owned_ptr py (PySequence_Repeat s count)

/-- `PySequence::concat` (src/objects/sequence.rs lines 44-50). -/
def PySequence.concat {α : Type} (py : Session) (s t : PySeq α) :
    Except PyErr (PySeq α) :=
  result_from_owned_ptr py (PySequence_Concat s t)

/-- `PySequence::get_item` (src/objects/sequence.rs lines 89-96):
`assert!(index < self.len().unwrap())` — the `unwrap` panics if the length
query fails, the assertion panics if `index` is not below the length — then
the foreign get-item result is adopted unchecked (`PyObject::from_owned_ptr`),
so a null sentinel becomes an invalid handle (`ret none`), not an error. -/
def PySequence.get_item {α : Type} (py : Session) (s : PySeq α) (index : Int) :
    PanicOr (Option α) :=
  match PySequence.len py s with
  | Except.error _ => PanicOr.panic "called unwrap on an Err value"
  | Except.ok l =>
    if index < l then PanicOr.ret (PySequence_GetItem s index)
    else PanicOr.panic "assertion failed: index < self.len().unwrap()"

/-- `PySequence::contains` (src/objects/sequence.rs lines 178-185): exhaustive
match on the tri-state foreign return. -/
def PySequence.contains {α : Type} [DecidableEq α] (py : Session) (s : PySeq α) (v : α) :
    Except PyErr Bool :=
  match PySequence_Contains s v with
  | 0 => Except.ok false
  | 1 => Except.ok true
  | _ => Except.error (PyErr.fetch py)

/-- `PySequence::index` (src/objects/sequence.rs lines 190-197): the `-1`
sentinel is translated to an error; otherwise the raw index is returned as an
unsigned count. -/
def PySequence.index {α : Type} [DecidableEq α] (py : Session) (s : PySeq α) (v : α) :
    Except PyErr Nat :=
  let r := PySequence_Index s v
  if r = -1 then Except.error (PyErr.fetch py) else Except.ok r.toNat

/-- `PySequenceIterator` (src/objects/sequence.rs lines 220-223): an owned
sequence plus a zero-based cursor. -/
structure PySequenceIterator (α : Type) where
  sequence : PySeq α
  index : Int
deriving DecidableEq, Repr

/-- `IntoIterator for PySequence` (src/objects/sequence.rs lines 225-232):
the iterator starts at cursor 0. -/
def PySequence.into_iter {α : Type} (s : PySeq α) : PySequenceIterator α :=
  ⟨s, 0⟩

/-- `Iterator::next for PySequenceIterator` (src/objects/sequence.rs lines
244-259): re-fetches the current length (`len().unwrap()`, panicking on
failure), compares it with the cursor; if `cursor < length` it fetches the
element at the cursor, increments the cursor and yields the element,
otherwise it signals exhaustion (`none`) leaving the cursor unchanged. -/
def PySequenceIterator.next {α : Type} (py : Session) (it : PySequenceIterator α) :
    PanicOr (Option (Option α) × PySequenceIterator α) :=
  match PySequence.len py it.sequence with
  | Except.error _ => PanicOr.panic "called unwrap on an Err value"
  | Except.ok l =>
    if it.index < l then
      match PySequence.get_item py it.sequence it.index with
      | PanicOr.panic m => PanicOr.panic m
      | PanicOr.ret item => PanicOr.ret (some item, ⟨it.sequence, it.index + 1⟩)
    else
      PanicOr.ret (none, it)

/-- Drive the iterator for at most `fuel` calls to `next`, collecting the
yielded element handles in order; stops early at exhaustion; propagates a
panic. -/
def collectIter {α : Type} (py : Session) : Nat → PySequenceIterator α → PanicOr (List (Option α))
  | 0, _ => PanicOr.ret []
  | fuel + 1, it =>
    match PySequenceIterator.next py it with
    | PanicOr.panic m => PanicOr.panic m
    | PanicOr.ret (none, _) => PanicOr.ret []
    | PanicOr.ret (some x, it2) =>
      match collectIter py fuel it2 with
      | PanicOr.panic m => PanicOr.panic m
      | PanicOr.ret xs => PanicOr.ret (x :: xs)

/-- A foreign type object (`PyType` / `*mut PyTypeObject`), identified by a
stable id. -/
structure PyType where
  id : Nat
deriving DecidableEq, Repr

/-- A generic foreign object handle (`PyObject`), with its runtime type tag
and a payload identifying the object. -/
structure PyObj where
  ty : Nat
  val : Nat
deriving DecidableEq, Repr

/-- `PythonObjectDowncastError<'p>`: constructed in the source as
`PythonObjectDowncastError(py)` — it carries the session token only. -/
structure PythonObjectDowncastError where
  py : Session
deriving DecidableEq, Repr

/-- The statically-typed wrapper produced by the class macro
(`$name(PyRustObject<...>)`): it wraps the downcast object handle. -/
structure GeneratedClass where
  obj : PyObj
deriving DecidableEq, Repr

/-- `PythonObjectWithCheckedDowncast::downcast_from` as generated by
`py_class_impl_py_object!` (src/rustobject/class.rs lines 172-180):
if `PyObject_TypeCheck(obj.as_ptr(), type_ptr) != 0` the handle is wrapped
(unchecked downcast of the same object), else the error
`PythonObjectDowncastError(py)` is returned; `typeCheck` stands for the
foreign type-check call against the class's cached `type_ptr`. -/
def downcast_from (py : Session) (typeCheck : PyObj → Int) (obj : PyObj) :
    Except PythonObjectDowncastError GeneratedClass :=
  if typeCheck obj ≠ 0 then Except.ok ⟨obj⟩ else Except.error ⟨py⟩

/-- The per-class lazy-initialization state hidden in `create_instance`
(src/rustobject/class.rs lines 94-95): the cached type pointer (null =
`none`) and the reentrancy flag. -/
structure ClassState where
  type_ptr : Option PyType
  init_active : Bool
deriving DecidableEq, Repr

/-- Outcome of one `initialize` call: a returned `PyResult<PyType>` together
with the class state after the call, or a process-terminating panic. -/
inductive InitOutcome where
  | panic (msg : String)
  | ret (r : Except PyErr PyType) (st : ClassState)

/-- `PythonObjectFromPyClassMacro::initialize` as generated by
`py_class_impl!` (src/rustobject/class.rs lines 99-113), named `lazyInit`
here: if `type_ptr` is non-null, return the cached type immediately;
otherwise assert that no initialization is in progress (reentrancy fault),
set the flag, run the builder `init`, cache the pointer on success, clear
the flag, and propagate the builder's result. The builder is abstracted as
its outcome at this call (its body is a stub in the source). -/
def lazyInit (st : ClassState) (builder : Except PyErr PyType) : InitOutcome :=
  match st.type_ptr with
  | some ty => InitOutcome.ret (Except.ok ty) st
  | none =>
    if st.init_active then
      InitOutcome.panic "Reentrancy detected: already initializing class $name"
    else
      match builder with
      | Except.ok ty =>
          InitOutcome.ret (Except.ok ty) { type_ptr := some ty, init_active := false }
      | Except.error e =>
          InitOutcome.ret (Except.error e) { type_ptr := none, init_active := false }

/-! ## Helper lemmas -/

/-- The length query on a genuine (list-modelled) sequence always succeeds
with the element count. -/
theorem len_ok {α : Type} (py : Session) (s : PySeq α) :
    PySequence.len py s = Except.ok (s.items.length : Int) := by
  unfold PySequence.len PySequence.len_from_raw PySequence_Size
  rw [if_neg (by omega)]

/-- Evaluation of `get_item` at a non-negative in-range index. -/
theorem get_item_in_range_nonneg {α : Type} (py : Session) (s : PySeq α) (i : Int)
    (h0 : 0 ≤ i) (h1 : i < (s.items.length : Int)) :
    PySequence.get_item py s i = PanicOr.ret s.items[i.toNat]? := by
  simp only [PySequence.get_item, len_ok]
  rw [if_pos h1]
  unfold PySequence_GetItem
  rw [if_pos ⟨h0, h1⟩]

/-- Evaluation of `get_item` at a negative in-range index (from-end). -/
theorem get_item_in_range_neg {α : Type} (py : Session) (s : PySeq α) (i : Int)
    (h0 : -(s.items.length : Int) ≤ i) (h1 : i < 0) :
    PySequence.get_item py s i = PanicOr.ret s.items[(i + s.items.length).toNat]? := by
  simp only [PySequence.get_item, len_ok]
  rw [if_pos (by omega)]
  unfold PySequence_GetItem
  rw [if_neg (by omega), if_pos ⟨h0, h1⟩]

/-- Evaluation of `get_item` at an index at or above the length: the
assertion fires. -/
theorem get_item_high {α : Type} (py : Session) (s : PySeq α) (i : Int)
    (h : (s.items.length : Int) ≤ i) :
    PySequence.get_item py s i =
      PanicOr.panic "assertion failed: index < self.len().unwrap()" := by
  simp only [PySequence.get_item, len_ok]
  rw [if_neg (by omega)]

/-- Evaluation of `get_item` at an index below `-length`: the assertion
passes and the foreign null sentinel is adopted unchecked. -/
theorem get_item_low {α : Type} (py : Session) (s : PySeq α) (i : Int)
    (h : i < -(s.items.length : Int)) :
    PySequence.get_item py s i = PanicOr.ret none := by
  simp only [PySequence.get_item, len_ok]
  rw [if_pos (by omega)]
  unfold PySequence_GetItem
  rw [if_neg (by omega), if_neg (by omega)]

/-! ## Claims about the lazy class initialization (`initialize`, embedded as
`lazyInit`) -/

/-- C3: after one call to `initialize` has succeeded, every subsequent call
returns `Ok` with the same type descriptor via the cached fast path and
leaves the state unchanged, independently of the builder (so the builder is
not run again): `initialize` is idempotent. -/
theorem C3_lazyInit_idempotent (st : ClassState) (b : Except PyErr PyType) (ty : PyType)
    (st2 : ClassState) (h : lazyInit st b = InitOutcome.ret (Except.ok ty) st2) :
    st2.type_ptr = some ty ∧
    ∀ b2 : Except PyErr PyType, lazyInit st2 b2 = InitOutcome.ret (Except.ok ty) st2 := by
  unfold lazyInit at h
  cases hst : st.type_ptr with
  | some t =>
    rw [hst] at h
    obtain ⟨h1, h2⟩ := InitOutcome.ret.inj h
    obtain h3 := Except.ok.inj h1
    subst h2; subst h3
    refine ⟨hst, fun b2 => ?_⟩
    unfold lazyInit
    rw [hst]
  | none =>
    rw [hst] at h
    by_cases ha : st.init_active
    · rw [if_pos ha] at h
      exact absurd h (by intro hc; cases hc)
    · rw [if_neg ha] at h
      cases b with
      | ok t =>
        obtain ⟨h1, h2⟩ := InitOutcome.ret.inj h
        obtain h3 := Except.ok.inj h1
        subst h2; subst h3
        exact ⟨rfl, fun b2 => rfl⟩
      | error e =>
        obtain ⟨h1, h2⟩ := InitOutcome.ret.inj h
        cases h1

/-- Witness for C3: a concrete first successful call, then a second call
whose builder outcome would be an error, still returning the cached
descriptor. -/
theorem C3_lazyInit_idempotent_witness :
    lazyInit ⟨some ⟨7⟩, false⟩ (Except.error ⟨0⟩) =
      InitOutcome.ret (Except.ok ⟨7⟩) ⟨some ⟨7⟩, false⟩ :=
  (C3_lazyInit_idempotent ⟨none, false⟩ (Except.ok ⟨7⟩) ⟨7⟩ ⟨some ⟨7⟩, false⟩ rfl).2
    (Except.error ⟨0⟩)

/-- C4: entering `initialize` while the same class's initialization is
already in progress (cached pointer still null, in-progress flag set) fails
fast with the reentrancy assertion — it panics rather than returning a
value, for every possible builder outcome. -/
theorem C4_reentrancy_faults (b : Except PyErr PyType) :
    lazyInit ⟨none, true⟩ b =
      InitOutcome.panic "Reentrancy detected: already initializing class $name" := rfl

/-- C10: a failed build propagates the builder's error while leaving the
cached type pointer null and the in-progress flag cleared, and from that
state a later call with a succeeding builder runs the build and reaches the
ready state — a failed build does not poison the type. -/
theorem C10_failed_build_not_poisoned (e : PyErr) (ty : PyType) :
    lazyInit ⟨none, false⟩ (Except.error e) = InitOutcome.ret (Except.error e) ⟨none, false⟩ ∧
    lazyInit ⟨none, false⟩ (Except.ok ty) = InitOutcome.ret (Except.ok ty) ⟨some ty, false⟩ :=
  ⟨rfl, rfl⟩

/-! ## Claims about the checked downcast -/

/-- C2 (counterexample): two distinct handles that fail the type check
produce the very same error value `PythonObjectDowncastError(py)`, so the
error cannot contain the original handle — a failed `downcast_from` does
not return the handle inside the error. -/
theorem C2_counterexample :
    downcast_from ⟨⟨0⟩⟩ (fun _ => 0) ⟨1, 1⟩ = downcast_from ⟨⟨0⟩⟩ (fun _ => 0) ⟨2, 2⟩ ∧
    downcast_from ⟨⟨0⟩⟩ (fun _ => 0) ⟨1, 1⟩ = Except.error ⟨⟨⟨0⟩⟩⟩ := by
  constructor <;> rfl

/-- C2 (amended): the checked downcast succeeds, wrapping the same handle,
exactly when the foreign type-check predicate returns nonzero; on failure it
returns an error carrying only the session identity (the original handle is
not returned inside the error — its ownership is consumed). -/
theorem C2_downcast_amended (py : Session) (typeCheck : PyObj → Int) (obj : PyObj) :
    (typeCheck obj ≠ 0 → downcast_from py typeCheck obj = Except.ok ⟨obj⟩) ∧
    (typeCheck obj = 0 → downcast_from py typeCheck obj = Except.error ⟨py⟩) := by
  constructor
  · intro h
    unfold downcast_from
    rw [if_pos h]
  · intro h
    unfold downcast_from
    rw [if_neg (by simpa using h)]

/-- Witness for C2 (amended): a concrete passing and a concrete failing
downcast. -/
theorem C2_downcast_amended_witness :
    downcast_from ⟨⟨0⟩⟩ (fun o => if o.ty = 3 then 1 else 0) ⟨3, 9⟩ = Except.ok ⟨⟨3, 9⟩⟩ ∧
    downcast_from ⟨⟨0⟩⟩ (fun o => if o.ty = 3 then 1 else 0) ⟨4, 9⟩ = Except.error ⟨⟨⟨0⟩⟩⟩ :=
  ⟨(C2_downcast_amended ⟨⟨0⟩⟩ (fun o => if o.ty = 3 then 1 else 0) ⟨3, 9⟩).1 (by decide),
   (C2_downcast_amended ⟨⟨0⟩⟩ (fun o => if o.ty = 3 then 1 else 0) ⟨4, 9⟩).2 (by decide)⟩

/-! ## Claims about `get_item` bounds (C1) and negative-index aliasing (C6) -/

/-- C1 (counterexample): on the one-element sequence `[0]`, the index `-2`
lies outside `[-length, length)`, yet `get_item` does not fail the
assertion: the source asserts only `index < len()`, so the call goes
through and adopts the foreign null sentinel as an invalid handle. -/
theorem C1_counterexample :
    ((-2 : Int) < -((PySeq.mk [(0 : Nat)]).items.length : Int)) ∧
    PySequence.get_item ⟨⟨0⟩⟩ (PySeq.mk [(0 : Nat)]) (-2) = PanicOr.ret none := by
  constructor
  · decide
  · decide

/-- C1 (amended): `get_item` fails the process-terminating assertion exactly
when `index ≥ length`; for `index` within `[-length, length)` it returns the
element handle without asserting; for `index < -length` it does not assert
either — the foreign call's null sentinel is adopted unchecked as an invalid
handle. -/
theorem C1_get_item_ranges {α : Type} (py : Session) (s : PySeq α) (i : Int) :
    ((s.items.length : Int) ≤ i →
        PySequence.get_item py s i =
          PanicOr.panic "assertion failed: index < self.len().unwrap()") ∧
    (0 ≤ i → i < (s.items.length : Int) →
        ∃ x, PySequence.get_item py s i = PanicOr.ret (some x)) ∧
    (-(s.items.length : Int) ≤ i → i < 0 →
        ∃ x, PySequence.get_item py s i = PanicOr.ret (some x)) ∧
    (i < -(s.items.length : Int) → PySequence.get_item py s i = PanicOr.ret none) := by
  refine ⟨fun h => get_item_high py s i h, fun h0 h1 => ?_, fun h0 h1 => ?_,
    fun h => get_item_low py s i h⟩
  · rw [get_item_in_range_nonneg py s i h0 h1]
    have hlt : i.toNat < s.items.length := by omega
    exact ⟨s.items[i.toNat], by rw [List.getElem?_eq_getElem hlt]⟩
  · rw [get_item_in_range_neg py s i h0 h1]
    have hlt : (i + s.items.length).toNat < s.items.length := by omega
    exact ⟨s.items[(i + s.items.length).toNat], by rw [List.getElem?_eq_getElem hlt]⟩

/-- Witness for C1 (amended): concrete calls in each regime on the
two-element sequence `[5, 7]`. -/
theorem C1_get_item_ranges_witness :
    (∃ x, PySequence.get_item ⟨⟨0⟩⟩ (PySeq.mk [(5 : Nat), 7]) (-1) = PanicOr.ret (some x)) ∧
    PySequence.get_item ⟨⟨0⟩⟩ (PySeq.mk [(5 : Nat), 7]) 2 =
      PanicOr.panic "assertion failed: index < self.len().unwrap()" ∧
    PySequence.get_item ⟨⟨0⟩⟩ (PySeq.mk [(5 : Nat), 7]) (-3) = PanicOr.ret none :=
  ⟨(C1_get_item_ranges ⟨⟨0⟩⟩ (PySeq.mk [(5 : Nat), 7]) (-1)).2.2.1 (by decide) (by decide),
   (C1_get_item_ranges ⟨⟨0⟩⟩ (PySeq.mk [(5 : Nat), 7]) 2).1 (by decide),
   (C1_get_item_ranges ⟨⟨0⟩⟩ (PySeq.mk [(5 : Nat), 7]) (-3)).2.2.2 (by decide)⟩

/-! ## Claim about `repeat` with negative counts (C5) -/

/-- C5: for every sequence and every negative count, `repeat` returns `Ok`
with the empty sequence (length 0), not an error — including for non-empty
sequences. -/
theorem C5_repeat_negative {α : Type} (py : Session) (s : PySeq α) (n : Int) (h : n < 0) :
    PySequence.repeat py s n = Except.ok ⟨[]⟩ ∧ (PySeq.mk ([] : List α)).items.length = 0 := by
  refine ⟨?_, rfl⟩
  unfold PySequence.repeat PySequence_Repeat result_from_owned_ptr
  rw [Int.toNat_eq_zero.mpr (le_of_lt h)]
  rfl

/-- Witness for C5: repeating the non-empty sequence `[5, 7]` `-3` times
yields the empty sequence. -/
theorem C5_repeat_negative_witness :
    PySequence.repeat ⟨⟨0⟩⟩ (PySeq.mk [(5 : Nat), 7]) (-3) = Except.ok ⟨[]⟩ :=
  (C5_repeat_negative ⟨⟨0⟩⟩ (PySeq.mk [(5 : Nat), 7]) (-3) (by decide)).1

/-! ## Negative-index aliasing (C6) -/

/-- C6: for every sequence and every index `i` with `0 ≤ i < length`,
`get_item S i` equals `get_item S (i - length)` — a negative index counts
from the end of the sequence. -/
theorem C6_negative_index_alias {α : Type} (py : Session) (s : PySeq α) (i : Int)
    (h0 : 0 ≤ i) (h1 : i < (s.items.length : Int)) :
    PySequence.get_item py s i = PySequence.get_item py s (i - s.items.length) := by
  rw [get_item_in_range_nonneg py s i h0 h1,
      get_item_in_range_neg py s (i - s.items.length) (by omega) (by omega)]
  have hc : (i - (s.items.length : Int) + s.items.length).toNat = i.toNat := by omega
  rw [hc]

/-- Witness for C6: on `[1,1,2,3,5,8]`, `get_item 5` equals
`get_item (5 - 6) = get_item (-1)`. -/
theorem C6_negative_index_alias_witness :
    PySequence.get_item ⟨⟨0⟩⟩ (PySeq.mk [(1 : Nat), 1, 2, 3, 5, 8]) 5 =
      PySequence.get_item ⟨⟨0⟩⟩ (PySeq.mk [(1 : Nat), 1, 2, 3, 5, 8])
        (5 - ((PySeq.mk [(1 : Nat), 1, 2, 3, 5, 8]).items.length : Int)) :=
  C6_negative_index_alias ⟨⟨0⟩⟩ (PySeq.mk [(1 : Nat), 1, 2, 3, 5, 8]) 5
    (by decide) (by decide)

/-! ## contains / index agreement (C7) -/

/-- `firstIdx` finds no index exactly when the needle is absent. -/
theorem firstIdx_eq_none_iff {α : Type} [DecidableEq α] (l : List α) (x : α) :
    firstIdx l x = none ↔ x ∉ l := by
  induction l with
  | nil => simp [firstIdx]
  | cons a rest ih =>
    by_cases h : a = x
    · subst h
      simp [firstIdx]
    · rw [show firstIdx (a :: rest) x = (firstIdx rest x).map (· + 1) from by
        simp [firstIdx, h]]
      rw [Option.map_eq_none', ih, List.mem_cons]
      constructor
      · intro hx hmem
        cases hmem with
        | inl he => exact h he.symm
        | inr hm => exact hx hm
      · intro hx hm
        exact hx (Or.inr hm)

/-- `contains` on a present needle. -/
theorem contains_of_mem {α : Type} [DecidableEq α] (py : Session) (s : PySeq α) (x : α)
    (h : x ∈ s.items) : PySequence.contains py s x = Except.ok true := by
  unfold PySequence.contains PySequence_Contains
  rw [if_pos h]
  rfl

/-- `contains` on an absent needle. -/
theorem contains_of_not_mem {α : Type} [DecidableEq α] (py : Session) (s : PySeq α) (x : α)
    (h : x ∉ s.items) : PySequence.contains py s x = Except.ok false := by
  unfold PySequence.contains PySequence_Contains
  rw [if_neg h]
  rfl

/-- `index` when the search found a first occurrence. -/
theorem index_of_firstIdx {α : Type} [DecidableEq α] (py : Session) (s : PySeq α) (x : α)
    (i : Nat) (h : firstIdx s.items x = some i) :
    PySequence.index py s x = Except.ok i := by
  simp only [PySequence.index, PySequence_Index, h]
  rw [if_neg (by omega), Int.toNat_natCast]

/-- `index` on an absent needle: the not-found sentinel becomes the fetched
error. -/
theorem index_of_not_mem {α : Type} [DecidableEq α] (py : Session) (s : PySeq α) (x : α)
    (h : x ∉ s.items) : PySequence.index py s x = Except.error (PyErr.fetch py) := by
  simp only [PySequence.index, PySequence_Index, (firstIdx_eq_none_iff s.items x).mpr h]
  simp

/-- C7: `contains S x` returns `Ok true` exactly when `index S x` succeeds,
and returns `Ok false` exactly when `index S x` fails with the not-found
error fetched from the session. -/
theorem C7_contains_iff_index {α : Type} [DecidableEq α] (py : Session) (s : PySeq α)
    (x : α) :
    (PySequence.contains py s x = Except.ok true ↔
        ∃ i, PySequence.index py s x = Except.ok i) ∧
    (PySequence.contains py s x = Except.ok false ↔
        PySequence.index py s x = Except.error (PyErr.fetch py)) := by
  by_cases h : x ∈ s.items
  · obtain ⟨i, hi⟩ : ∃ i, firstIdx s.items x = some i := by
      rcases hfi : firstIdx s.items x with _ | j
      · exact absurd ((firstIdx_eq_none_iff s.items x).mp hfi) (by simpa using h)
      · exact ⟨j, rfl⟩
    rw [contains_of_mem py s x h, index_of_firstIdx py s x i hi]
    constructor
    · exact ⟨fun _ => ⟨i, rfl⟩, fun _ => rfl⟩
    · constructor
      · intro hc
        exact absurd (Except.ok.inj hc) (by decide)
      · intro hc
        cases hc
  · rw [contains_of_not_mem py s x h, index_of_not_mem py s x h]
    constructor
    · constructor
      · intro hc
        exact absurd (Except.ok.inj hc) (by decide)
      · rintro ⟨i, hi⟩
        cases hi
    · exact ⟨fun _ => rfl, fun _ => rfl⟩

/-- Witness for C7: on `[5, 7]`, the needle `7` is contained and found at
index 1; the needle `9` is not contained and the search errs. -/
theorem C7_contains_iff_index_witness :
    (∃ i, PySequence.index ⟨⟨0⟩⟩ (PySeq.mk [(5 : Nat), 7]) 7 = Except.ok i) ∧
    PySequence.index ⟨⟨0⟩⟩ (PySeq.mk [(5 : Nat), 7]) 9 =
      Except.error (PyErr.fetch ⟨⟨0⟩⟩) :=
  ⟨(C7_contains_iff_index ⟨⟨0⟩⟩ (PySeq.mk [(5 : Nat), 7]) 7).1.mp rfl,
   (C7_contains_iff_index ⟨⟨0⟩⟩ (PySeq.mk [(5 : Nat), 7]) 9).2.mp rfl⟩

/-! ## Length sentinel translation (C8) -/

/-- C8: under the foreign ABI guarantee that the raw size return is either a
non-negative count or the sentinel `-1`, `len` returns an error exactly when
the raw return is `-1`, in which case the error is the condition fetched from
the session error state; in every other case it returns `Ok` with the
non-negative count. -/
theorem C8_len_sentinel (py : Session) (v : Int) (hv : 0 ≤ v ∨ v = -1) :
    ((∃ e, PySequence.len_from_raw py v = Except.error e) ↔ v = -1) ∧
    (v = -1 → PySequence.len_from_raw py v = Except.error (PyErr.fetch py)) ∧
    (v ≠ -1 → PySequence.len_from_raw py v = Except.ok v ∧ 0 ≤ v) := by
  unfold PySequence.len_from_raw
  refine ⟨⟨?_, ?_⟩, ?_, ?_⟩
  · rintro ⟨e, he⟩
    by_contra hne
    rw [if_neg hne] at he
    cases he
  · intro h
    exact ⟨PyErr.fetch py, by rw [if_pos h]⟩
  · intro h
    rw [if_pos h]
  · intro h
    refine ⟨by rw [if_neg h], ?_⟩
    rcases hv with h0 | h1
    · exact h0
    · exact absurd h1 h

/-- Witness for C8: the sentinel `-1` yields the fetched error; the raw
count `4` yields `Ok 4`. -/
theorem C8_len_sentinel_witness :
    PySequence.len_from_raw ⟨⟨3⟩⟩ (-1) = Except.error ⟨3⟩ ∧
    PySequence.len_from_raw ⟨⟨3⟩⟩ 4 = Except.ok 4 :=
  ⟨(C8_len_sentinel ⟨⟨3⟩⟩ (-1) (Or.inr rfl)).2.1 rfl,
   ((C8_len_sentinel ⟨⟨3⟩⟩ 4 (Or.inl (by decide))).2.2 (by decide)).1⟩

/-! ## Sequence iteration (C9) -/

/-- One `next` call with the cursor strictly below the current length: the
element at the cursor is yielded and the cursor advances. -/
theorem next_of_lt {α : Type} (py : Session) (s : PySeq α) (i : Nat)
    (h : i < s.items.length) :
    PySequenceIterator.next py ⟨s, (i : Int)⟩ =
      PanicOr.ret (some s.items[i]?, ⟨s, ((i : Int) + 1)⟩) := by
  simp only [PySequenceIterator.next, len_ok]
  rw [if_pos (show (i : Int) < (s.items.length : Int) by exact_mod_cast h)]
  rw [get_item_in_range_nonneg py s (i : Int) (by omega) (by exact_mod_cast h)]
  rw [Int.toNat_natCast]

/-- One `next` call with the cursor at or past the current length: the
iterator signals exhaustion, leaving the cursor unchanged. -/
theorem next_exhausted {α : Type} (py : Session) (it : PySequenceIterator α)
    (h : (it.sequence.items.length : Int) ≤ it.index) :
    PySequenceIterator.next py it = PanicOr.ret (none, it) := by
  simp only [PySequenceIterator.next, len_ok]
  rw [if_neg (by omega)]

/-- Driving the iterator from cursor `i` with enough fuel collects exactly
the suffix of the sequence from `i` on, each element as a valid handle. -/
theorem collectIter_drop {α : Type} (py : Session) (s : PySeq α) :
    ∀ (fuel i : Nat), s.items.length - i ≤ fuel →
      collectIter py fuel ⟨s, (i : Int)⟩ = PanicOr.ret ((s.items.drop i).map some) := by
  intro fuel
  induction fuel with
  | zero =>
    intro i h
    rw [List.drop_eq_nil_of_le (by omega)]
    rfl
  | succ fuel ih =>
    intro i h
    by_cases hi : i < s.items.length
    · have hc : ((i : Int) + 1) = ((i + 1 : Nat) : Int) := by push_cast; ring
      simp only [collectIter, next_of_lt py s i hi, hc, ih (i + 1) (by omega)]
      rw [List.drop_eq_getElem_cons hi, List.map_cons, List.getElem?_eq_getElem hi]
    · have hle : s.items.length ≤ i := by omega
      simp only [collectIter,
        next_exhausted py ⟨s, (i : Int)⟩
          (by show ((s.items.length : Int)) ≤ (i : Int); exact_mod_cast hle)]
      rw [List.drop_eq_nil_of_le hle]
      rfl

/-- C9: iterating an unmutated sequence whose length query succeeds yields
exactly `length S` elements in index order, the element yielded at step `i`
being the result of `get_item S i`; and each `next` call compares the
iterator's current length against the cursor, signalling exhaustion whenever
the cursor has reached the current length. -/
theorem C9_iterator_yields {α : Type} (py : Session) (s : PySeq α) (k : Nat) :
    collectIter py (s.items.length + k) (PySequence.into_iter s) =
      PanicOr.ret (s.items.map some) ∧
    (∀ i : Nat, i < s.items.length →
        PySequence.get_item py s (i : Int) = PanicOr.ret s.items[i]?) ∧
    (∀ it : PySequenceIterator α, (it.sequence.items.length : Int) ≤ it.index →
        PySequenceIterator.next py it = PanicOr.ret (none, it)) := by
  refine ⟨?_, fun i hi => ?_, fun it h => next_exhausted py it h⟩
  · have h := collectIter_drop py s (s.items.length + k) 0 (by omega)
    simpa [PySequence.into_iter] using h
  · rw [get_item_in_range_nonneg py s (i : Int) (by omega) (by exact_mod_cast hi)]
    rw [Int.toNat_natCast]

/-- Witness for C9: iterating `[5, 7]` with fuel 3 yields exactly
`[some 5, some 7]`, and `get_item` at index 1 yields the element `7`. -/
theorem C9_iterator_yields_witness :
    collectIter ⟨⟨0⟩⟩ 3 (PySequence.into_iter (PySeq.mk [(5 : Nat), 7])) =
      PanicOr.ret [some 5, some 7] ∧
    PySequence.get_item ⟨⟨0⟩⟩ (PySeq.mk [(5 : Nat), 7]) 1 = PanicOr.ret (some 7) := by
  have h := C9_iterator_yields ⟨⟨0⟩⟩ (PySeq.mk [(5 : Nat), 7]) 1
  refine ⟨h.1, ?_⟩
  have h2 := h.2.1 1 (by decide)
  simpa using h2

end RustCPython
